import Mathlib

/-!
Shallow embedding of `src/builder.py` (a cross-platform C-project build
orchestrator).  The program is a sequential pipeline: check build-tool
dependencies, clean the build/output directories, clone a git repository,
detect the build system from marker files, and drive the matching build
(CMake / Autotools / Make).  Each Python function is translated into a pure
Lean function over explicit environments describing the filesystem and the
outcomes of the external subprocesses the program invokes; the observable
side effects (directory removals, subprocess invocations, diagnostics) are
recorded as explicit event traces.
-/

namespace Builder

/-- The `BuildSystem` enumeration from `builder.py` (class `BuildSystem`,
whose members are the strings "cmake", "make", "autotools", "unknown"). -/
inductive BuildSystem where
  | CMAKE
  | MAKE
  | AUTOTOOLS
  | UNKNOWN
deriving DecidableEq, Repr

/-- A source directory listing.  `none` models a directory that does not
exist on disk; `some fs` models an existing directory whose entry names are
`fs`.  `pathlib.Path.exists` on `dir / name` is membership of `name`, and on
a nonexistent directory every such check is `False`. -/
def dirHasFile (src : Option (List String)) (name : String) : Bool :=
  match src with
  | none => false
  | some fs => decide (name ∈ fs)

/-- Model of `list(self.source_dir.glob("makefile*"))` from
`detect_build_system` (line 88).  On POSIX filesystems `pathlib` glob
matching is case-sensitive, so the pattern `makefile*` matches exactly the
entries whose name starts with the literal characters `makefile`.
`pathlib`'s selector first checks `is_dir` on the parent and returns an
empty iterator for a nonexistent directory, hence the `none` case is `[]`
(no exception is raised). -/
def makefileGlob (src : Option (List String)) : List String :=
  match src with
  | none => []
  | some fs => fs.filter (fun n => ("makefile".data).isPrefixOf n.data)

/-- Translation of `CProjectBuilder.detect_build_system` (lines 73-93):
CMake markers are checked first, then Autotools, then Make, else Unknown. -/
def detect_build_system (src : Option (List String)) : BuildSystem :=
  if dirHasFile src "CMakeLists.txt" then BuildSystem.CMAKE
  else if dirHasFile src "configure.ac" || dirHasFile src "configure" then
    BuildSystem.AUTOTOOLS
  else if dirHasFile src "Makefile" || !(makefileGlob src).isEmpty then
    BuildSystem.MAKE
  else BuildSystem.UNKNOWN

/-- Environment for `check_dependencies` (lines 95-164): whether each probe
subcommand (`git --version`, `make --version`, `cmake --version`) succeeds,
whether the host is Windows, and whether `WindowsTools.find_msbuild`
locates MSBuild. -/
structure DepsEnv where
  gitOk : Bool
  makeOk : Bool
  cmakeOk : Bool
  isWindows : Bool
  msbuildFound : Bool
deriving DecidableEq, Repr

/-- Translation of `CProjectBuilder.check_dependencies`: the returned
`missing_tools` list, accumulated in source order (git, make, cmake, then
msbuild on Windows only). -/
def check_dependencies (d : DepsEnv) : List String :=
  (if d.gitOk then [] else ["git"]) ++
  (if d.makeOk then [] else ["make"]) ++
  (if d.cmakeOk then [] else ["cmake"]) ++
  (if d.isWindows && !d.msbuildFound then ["msbuild"] else [])

/-- A file of the checked-out source tree as seen by the Make driver's
fallback scan: its basename, whether `Path.is_file()` holds, and whether
`os.access(file, os.X_OK)` holds (the file is executable by the process). -/
structure SrcFile where
  name : String
  isFile : Bool
  execOk : Bool
deriving DecidableEq, Repr

/-- The extension list `['', '.exe', '.dll', '.so', '.dylib']` iterated by
the Make driver's fallback (line 293). -/
def binExts : List String := ["", ".exe", ".dll", ".so", ".dylib"]

/-- Model of `self.source_dir.rglob('*' + ext)` membership: the glob
pattern `*<ext>` matches exactly the names ending in `ext` (for `ext = ""`
the pattern is `*`, which matches every name). -/
def extMatch (ext : String) (f : SrcFile) : Bool :=
  List.isSuffixOf ext.data f.name.data

/-- Translation of the fallback copy loop of `build_make_project`
(lines 293-296): for each extension, every matching regular executable file
of the source tree is copied (flat, by basename) into the output
directory.  The result is the list of copied basenames in copy order. -/
def fallbackCopies (tree : List SrcFile) : List String :=
  (binExts.map (fun ext =>
    ((tree.filter (fun f => extMatch ext f)).filter
      (fun f => f.isFile && f.execOk)).map (fun f => f.name))).flatten

/-- The mutable state the build drivers act on: the process working
directory (`"project_root"` and `"source_dir"` stand for
`self.project_root` and `self.source_dir`; any other string is some other
directory the process was started in), whether the output directory
exists, and the basenames copied into the output directory by the builder
script itself (effects performed inside the invoked build tools are opaque
to the program and are not part of this state). -/
structure St where
  cwd : String
  outputDirExists : Bool
  outputFiles : List String
deriving DecidableEq, Repr

/-- Result of a build driver: `ok` normal return, `err` a propagating
exception (a `CalledProcessError` from a `check=True` subprocess).  Both
carry the state at the moment control leaves the driver. -/
inductive Outcome where
  | ok (s : St)
  | err (s : St)
deriving DecidableEq, Repr

/-- State carried by an outcome. -/
def Outcome.state : Outcome → St
  | .ok s => s
  | .err s => s

/-- Whether the driver returned normally. -/
def Outcome.isOk : Outcome → Bool
  | .ok _ => true
  | .err _ => false

/-- Environment for `build_make_project` (lines 268-298): whether
`source_dir/configure` exists, whether each subprocess step succeeds, and
the files found by the fallback's recursive scan of the source tree. -/
structure MakeEnv where
  hasConfigure : Bool
  configureOk : Bool
  makeOk : Bool
  installOk : Bool
  tree : List SrcFile
deriving DecidableEq, Repr

/-- Translation of `CProjectBuilder.build_make_project`: chdir into the
source directory; run `./configure` if present (`check=True`); run
`make -j` (`check=True`); try `make install` and on `CalledProcessError`
fall back to creating the output directory and copying the scanned
artifacts; finally chdir to the project root.  The final `os.chdir` is not
in a `finally` block, so on any raising step the working directory stays
at the source directory. -/
def build_make_project (env : MakeEnv) (s0 : St) : Outcome :=
  let s1 : St := { s0 with cwd := "source_dir" }
  if env.hasConfigure && !env.configureOk then Outcome.err s1
  else if !env.makeOk then Outcome.err s1
  else
    let s2 : St :=
      if env.installOk then s1
      else { s1 with outputDirExists := true,
                     outputFiles := s1.outputFiles ++ fallbackCopies env.tree }
    Outcome.ok { s2 with cwd := "project_root" }

/-- Environment for `build_autotools_project` (lines 240-266). -/
structure AutotoolsEnv where
  hasAutogen : Bool
  autogenOk : Bool
  hasConfigure : Bool
  configureOk : Bool
  makeOk : Bool
  installOk : Bool
deriving DecidableEq, Repr

/-- Translation of `CProjectBuilder.build_autotools_project`: chdir into
the source directory; run `./autogen.sh` if present, `./configure` if
present, `make -j`, `make install`, each with `check=True` (here a failing
`make install` raises, unlike the Make driver); finally chdir to the
project root, again not protected by `finally`. -/
def build_autotools_project (env : AutotoolsEnv) (s0 : St) : Outcome :=
  let s1 : St := { s0 with cwd := "source_dir" }
  if env.hasAutogen && !env.autogenOk then Outcome.err s1
  else if env.hasConfigure && !env.configureOk then Outcome.err s1
  else if !env.makeOk then Outcome.err s1
  else if !env.installOk then Outcome.err s1
  else Outcome.ok { s1 with cwd := "project_root" }

/-- Environment for `build_cmake_project` (lines 196-238): outcomes of the
configure, build and install subprocess steps. -/
structure CMakeEnv where
  configOk : Bool
  buildOk : Bool
  installOk : Bool
deriving DecidableEq, Repr

/-- Translation of `CProjectBuilder.build_cmake_project`: three
`check=True` subprocess steps in sequence; no working-directory change. -/
def build_cmake_project (env : CMakeEnv) (s0 : St) : Outcome :=
  if !env.configOk then Outcome.err s0
  else if !env.buildOk then Outcome.err s0
  else if !env.installOk then Outcome.err s0
  else Outcome.ok s0

/-- Observable side effects of a run, in order of occurrence:
diagnostic prints, the clean of the build/output directories, the removal
of a stale source checkout, the `git clone` invocation (carrying the full
command line), the recursive submodule update, the result of build-system
detection, and the invocation of a build driver. -/
inductive Event where
  | diag (msg : String)
  | cleanDirs
  | removeSourceDir
  | gitClone (cmd : List String)
  | submoduleUpdate
  | detected (bs : BuildSystem)
  | driverRun (bs : BuildSystem)
deriving DecidableEq, Repr

/-- Result of one pipeline stage: the events it emitted and the state it
left behind, tagged by whether it returned normally or raised. -/
inductive StageResult where
  | ok (evs : List Event) (s : St)
  | err (evs : List Event) (s : St)
deriving DecidableEq, Repr

/-- Events emitted by a stage. -/
def StageResult.events : StageResult → List Event
  | .ok evs _ => evs
  | .err evs _ => evs

/-- State left by a stage. -/
def StageResult.state : StageResult → St
  | .ok _ s => s
  | .err _ s => s

/-- Whether the stage returned normally. -/
def StageResult.isOk : StageResult → Bool
  | .ok _ _ => true
  | .err _ _ => false

/-- Translation of `CProjectBuilder.clean_directories` (lines 166-174):
remove and recreate the build and output directories; on success the
output directory exists and is empty.  `cleanOk = false` models a raising
`shutil.rmtree`/`mkdir` (e.g. permission error). -/
def clean_directories (cleanOk : Bool) (s : St) : StageResult :=
  if cleanOk then
    StageResult.ok [Event.cleanDirs]
      { s with outputDirExists := true, outputFiles := [] }
  else StageResult.err [Event.cleanDirs] s

/-- Environment for `clone_repository` (lines 176-194). -/
structure CloneEnv where
  url : String
  branch : Option String
  sourceDirExists : Bool
  cloneOk : Bool
  submoduleOk : Bool
deriving DecidableEq, Repr

/-- Translation of the clone command construction (lines 184-187):
`['git', 'clone']`, extended by `['--branch', branch]` when a branch was
supplied, then the URL and the destination directory. -/
def cloneCmd (url : String) (branch : Option String) : List String :=
  ["git", "clone"] ++
  (match branch with
   | some b => ["--branch", b]
   | none => []) ++
  [url, "source_dir"]

/-- Translation of `CProjectBuilder.clone_repository`: remove an existing
source checkout, run the clone command (`check=True`), then recursively
initialize and update submodules (`check=True`).  Failures propagate; no
cleanup of the partial checkout happens on any path. -/
def clone_repository (env : CloneEnv) (s : St) : StageResult :=
  let evs :=
    (if env.sourceDirExists then [Event.removeSourceDir] else []) ++
    [Event.gitClone (cloneCmd env.url env.branch)]
  if !env.cloneOk then StageResult.err evs s
  else if !env.submoduleOk then
    StageResult.err (evs ++ [Event.submoduleUpdate]) s
  else StageResult.ok (evs ++ [Event.submoduleUpdate]) s

/-- Environment for a whole `run` (lines 315-344): dependency probes,
whether cleaning succeeds, the clone environment, the source-directory
listing seen by detection after checkout, and the three driver
environments. -/
structure RunEnv where
  deps : DepsEnv
  cleanOk : Bool
  clone : CloneEnv
  srcListing : Option (List String)
  cmake : CMakeEnv
  autotools : AutotoolsEnv
  make : MakeEnv
deriving Repr

/-- Translation of `CProjectBuilder.build_project` (lines 300-313): detect
the build system, dispatch to the matching driver, and raise
`Exception("No supported build system detected")` on `UNKNOWN`. -/
def build_project (env : RunEnv) (s : St) : StageResult :=
  match detect_build_system env.srcListing with
  | BuildSystem.CMAKE =>
    (match build_cmake_project env.cmake s with
     | Outcome.ok s' =>
       StageResult.ok [Event.detected BuildSystem.CMAKE,
                       Event.driverRun BuildSystem.CMAKE] s'
     | Outcome.err s' =>
       StageResult.err [Event.detected BuildSystem.CMAKE,
                        Event.driverRun BuildSystem.CMAKE] s')
  | BuildSystem.AUTOTOOLS =>
    (match build_autotools_project env.autotools s with
     | Outcome.ok s' =>
       StageResult.ok [Event.detected BuildSystem.AUTOTOOLS,
                       Event.driverRun BuildSystem.AUTOTOOLS] s'
     | Outcome.err s' =>
       StageResult.err [Event.detected BuildSystem.AUTOTOOLS,
                        Event.driverRun BuildSystem.AUTOTOOLS] s')
  | BuildSystem.MAKE =>
    (match build_make_project env.make s with
     | Outcome.ok s' =>
       StageResult.ok [Event.detected BuildSystem.MAKE,
                       Event.driverRun BuildSystem.MAKE] s'
     | Outcome.err s' =>
       StageResult.err [Event.detected BuildSystem.MAKE,
                        Event.driverRun BuildSystem.MAKE] s')
  | BuildSystem.UNKNOWN =>
    StageResult.err [Event.detected BuildSystem.UNKNOWN] s

/-- The diagnostics printed by the `except` handler of `run`
(lines 332-343): the error report followed by the troubleshooting
checklist. -/
def errorTail : List Event :=
  [Event.diag "Error during build process", Event.diag "Troubleshooting tips:"]

/-- The diagnostics printed on full success (lines 329-330). -/
def successTail : List Event :=
  [Event.diag "Build process completed successfully!",
   Event.diag "Output files can be found in: output_dir"]

/-- The troubleshooting-checklist diagnostic. -/
def troubleshootEv : Event := Event.diag "Troubleshooting tips:"

/-- The output-directory-location diagnostic. -/
def outputLocEv : Event := Event.diag "Output files can be found in: output_dir"

/-- Translation of `CProjectBuilder.run` (lines 315-344): check
dependencies and `sys.exit(1)` when any tool is missing (before the `try`
block, hence before any destructive step); otherwise run the stages
`clean_directories`, `clone_repository`, `build_project` inside one
`try`/`except` that prints the troubleshooting checklist and exits 1 on
any exception; on success print the output location and return (process
exit status 0).  The result is the exit status, the event trace and the
final state. -/
def run (env : RunEnv) (s0 : St) : Nat × List Event × St :=
  if !(check_dependencies env.deps).isEmpty then
    (1, [Event.diag "Missing required tools. Please install them and try again."], s0)
  else
    match clean_directories env.cleanOk s0 with
    | StageResult.err evs s => (1, evs ++ errorTail, s)
    | StageResult.ok evs1 s1 =>
      match clone_repository env.clone s1 with
      | StageResult.err evs s => (1, evs1 ++ evs ++ errorTail, s)
      | StageResult.ok evs2 s2 =>
        match build_project env s2 with
        | StageResult.err evs s => (1, evs1 ++ evs2 ++ evs ++ errorTail, s)
        | StageResult.ok evs3 s3 => (0, evs1 ++ evs2 ++ evs3 ++ successTail, s3)

/-- The characters of the pattern string `".git"`. -/
def gitChars : List Char := ['.', 'g', 'i', 't']

/-- Whether a character list starts with the pattern `".git"`. -/
def startsWithGit (s : List Char) : Bool :=
  gitChars.isPrefixOf s

/-- Translation of Python's `str.replace('.git', '')` (line 66): scan left
to right; whenever the next four characters are `".git"` consume them,
otherwise emit one character and continue.  Python replaces non-overlapping
occurrences left to right, which for an empty replacement is exactly this
deletion scan. -/
def dropGitAll : List Char → List Char
  | [] => []
  | c :: rest =>
    if startsWithGit (c :: rest) then
      match rest with
      | _ :: _ :: _ :: rest3 => dropGitAll rest3
      | rest' => c :: dropGitAll rest'
    else c :: dropGitAll rest

/-- Whether `".git"` occurs anywhere in a character list. -/
def containsGit : List Char → Bool
  | [] => false
  | c :: rest => startsWithGit (c :: rest) || containsGit rest

/-- Translation of `github_url.split('/')[-1]` (line 66): the characters
after the last `'/'` (the whole string when no `'/'` occurs). -/
def afterLastSlash (s : List Char) : List Char :=
  (s.reverse.takeWhile (fun c => c != '/')).reverse

/-- Translation of the project-name derivation in `CProjectBuilder.__init__`
(line 66): `github_url.split('/')[-1].replace('.git', '')`. -/
def project_name (url : String) : String :=
  ⟨dropGitAll (afterLastSlash url.data)⟩

end Builder

open Builder

/-! Helper lemmas. -/

theorem Builder.mem_makefileGlob (fs : List String) (n : String) :
    n ∈ makefileGlob (some fs) ↔
      n ∈ fs ∧ ("makefile".data).isPrefixOf n.data = true := by
  simp [makefileGlob, List.mem_filter]

/-- C2: detection returns exactly one of the four kinds, decided in the
fixed precedence order CMake, then Autotools (from `configure.ac` or
`configure`), then Make (from `Makefile` or a `makefile*` glob match), else
Unknown; the first matching marker wins. -/
theorem Builder.detect_build_system_precedence (src : Option (List String)) :
    (dirHasFile src "CMakeLists.txt" = true →
      detect_build_system src = BuildSystem.CMAKE) ∧
    (dirHasFile src "CMakeLists.txt" = false →
      (dirHasFile src "configure.ac" = true ∨ dirHasFile src "configure" = true) →
      detect_build_system src = BuildSystem.AUTOTOOLS) ∧
    (dirHasFile src "CMakeLists.txt" = false →
      dirHasFile src "configure.ac" = false →
      dirHasFile src "configure" = false →
      (dirHasFile src "Makefile" = true ∨ (makefileGlob src).isEmpty = false) →
      detect_build_system src = BuildSystem.MAKE) ∧
    (dirHasFile src "CMakeLists.txt" = false →
      dirHasFile src "configure.ac" = false →
      dirHasFile src "configure" = false →
      dirHasFile src "Makefile" = false →
      (makefileGlob src).isEmpty = true →
      detect_build_system src = BuildSystem.UNKNOWN) := by
  refine ⟨?_, ?_, ?_, ?_⟩
  · intro h
    simp [detect_build_system, h]
  · intro h hc
    rcases hc with hc | hc <;> simp [detect_build_system, h, hc]
  · intro h h1 h2 hm
    rcases hm with hm | hm <;> simp [detect_build_system, h, h1, h2, hm]
  · intro h h1 h2 h3 h4
    simp [detect_build_system, h, h1, h2, h3, h4]

/-- Witness for C2: a tree with both `CMakeLists.txt` and `Makefile` is
classified CMake, and a tree with only `configure` is Autotools. -/
theorem Builder.detect_build_system_precedence_witness :
    detect_build_system (some ["CMakeLists.txt", "Makefile"]) = BuildSystem.CMAKE ∧
    detect_build_system (some ["configure"]) = BuildSystem.AUTOTOOLS :=
  ⟨(Builder.detect_build_system_precedence (some ["CMakeLists.txt", "Makefile"])).1
      (by decide),
   (Builder.detect_build_system_precedence (some ["configure"])).2.1
      (by decide) (Or.inr (by decide))⟩

/-- C6 (corrected): `pathlib` glob matching is case-sensitive on POSIX, so
the Make marker fires for any directory entry whose name starts with the
lowercase characters `makefile` (when no CMake or Autotools marker is
present); it does not fire case-insensitively. -/
theorem Builder.detect_make_glob_case_sensitive (fs : List String) (n : String)
    (h1 : dirHasFile (some fs) "CMakeLists.txt" = false)
    (h2 : dirHasFile (some fs) "configure.ac" = false)
    (h3 : dirHasFile (some fs) "configure" = false)
    (hmem : n ∈ fs)
    (hpre : ("makefile".data).isPrefixOf n.data = true) :
    detect_build_system (some fs) = BuildSystem.MAKE := by
  have hg : n ∈ makefileGlob (some fs) :=
    (Builder.mem_makefileGlob fs n).2 ⟨hmem, hpre⟩
  have hne : (makefileGlob (some fs)).isEmpty = false := by
    cases hml : makefileGlob (some fs) with
    | nil => rw [hml] at hg; cases hg
    | cons a t => rfl
  simp [detect_build_system, h1, h2, h3, hne]

/-- Witness for C6 (corrected): a tree containing only `makefile.unix` is
classified Make. -/
theorem Builder.detect_make_glob_case_sensitive_witness :
    detect_build_system (some ["makefile.unix"]) = BuildSystem.MAKE :=
  Builder.detect_make_glob_case_sensitive ["makefile.unix"] "makefile.unix"
    (by decide) (by decide) (by decide) (by decide) (by decide)

/-- Counterexample for C6 as stated: a directory containing only
`MAKEFILE` (or only `Makefile.am`) is NOT classified Make — the glob is
case-sensitive, so detection returns Unknown. -/
theorem Builder.detect_make_glob_counterexample :
    detect_build_system (some ["MAKEFILE"]) = BuildSystem.UNKNOWN ∧
    detect_build_system (some ["Makefile.am"]) = BuildSystem.UNKNOWN := by
  decide

/-- C10: on a nonexistent source directory every marker check and the
`makefile*` glob come back empty, so detection returns Unknown without
raising. -/
theorem Builder.detect_build_system_missing_dir :
    detect_build_system none = BuildSystem.UNKNOWN := by
  decide

theorem Builder.startsWithGit_git (rest : List Char) :
    startsWithGit ('.' :: 'g' :: 'i' :: 't' :: rest) = true := by
  simp [startsWithGit, gitChars, List.isPrefixOf]

theorem Builder.dropGitAll_cons (c : Char) (rest : List Char)
    (h : startsWithGit (c :: rest) = false) :
    dropGitAll (c :: rest) = c :: dropGitAll rest := by
  rw [dropGitAll.eq_def]
  simp [h]

theorem Builder.containsGit_cons (c : Char) (rest : List Char)
    (h : containsGit (c :: rest) = false) :
    startsWithGit (c :: rest) = false ∧ containsGit rest = false := by
  simp [containsGit] at h
  exact h

theorem Builder.dropGitAll_of_not_contains (s : List Char)
    (h : containsGit s = false) : dropGitAll s = s := by
  induction s with
  | nil => rfl
  | cons c rest ih =>
    obtain ⟨h1, h2⟩ := Builder.containsGit_cons c rest h
    rw [Builder.dropGitAll_cons c rest h1, ih h2]

theorem Builder.startsWithGit_append_git (c : Char) (rest : List Char)
    (h : startsWithGit (c :: rest) = false) :
    startsWithGit ((c :: rest) ++ gitChars) = false := by
  match rest with
  | [] => simp [startsWithGit, gitChars, List.isPrefixOf]
  | [a] => simp [startsWithGit, gitChars, List.isPrefixOf]
  | [a, b] => simp [startsWithGit, gitChars, List.isPrefixOf]
  | a :: b :: d :: t =>
    simp [startsWithGit, gitChars, List.isPrefixOf] at h ⊢
    exact h

theorem Builder.dropGitAll_append_git (s : List Char)
    (h : containsGit s = false) : dropGitAll (s ++ gitChars) = s := by
  induction s with
  | nil => decide
  | cons c rest ih =>
    obtain ⟨h1, h2⟩ := Builder.containsGit_cons c rest h
    have hb := Builder.startsWithGit_append_git c rest h1
    rw [show (c :: rest) ++ gitChars = c :: (rest ++ gitChars) from rfl] at hb
    rw [show (c :: rest) ++ gitChars = c :: (rest ++ gitChars) from rfl,
        Builder.dropGitAll_cons c (rest ++ gitChars) hb, ih h2]

theorem Builder.takeWhile_append_all {α : Type} (p : α → Bool) (l₁ l₂ : List α)
    (h : ∀ a ∈ l₁, p a = true) :
    List.takeWhile p (l₁ ++ l₂) = l₁ ++ List.takeWhile p l₂ := by
  induction l₁ with
  | nil => simp
  | cons a t ih =>
    have ha := h a (by simp)
    simp [List.takeWhile, ha]
    exact ih (fun x hx => h x (by simp [hx]))

theorem Builder.afterLastSlash_append (pre name : List Char) (h : '/' ∉ name) :
    afterLastSlash (pre ++ '/' :: name) = name := by
  unfold afterLastSlash
  rw [List.reverse_append, List.reverse_cons, List.append_assoc]
  rw [Builder.takeWhile_append_all (fun c => c != '/') name.reverse
        (['/'] ++ pre.reverse)
        (by intro a ha
            simp [List.mem_reverse] at ha
            simp [bne_iff_ne]
            intro hEq
            exact h (hEq ▸ ha))]
  simp [List.takeWhile]

/-- C5 (corrected): `str.replace('.git', '')` removes EVERY occurrence of
the substring `.git` from the final path segment, not only a trailing
suffix.  When the segment contains no other occurrence of `.git` — stated
here as `containsGit name = false` — the derived name does equal `name`
for both URL shapes `.../name.git` and `.../name`. -/
theorem Builder.project_name_strips_git (pre name : List Char)
    (h1 : containsGit name = false) (h2 : '/' ∉ name) :
    project_name ⟨pre ++ '/' :: (name ++ gitChars)⟩ = ⟨name⟩ ∧
    project_name ⟨pre ++ '/' :: name⟩ = ⟨name⟩ := by
  constructor
  · apply congrArg String.mk
    have hslash : '/' ∉ name ++ gitChars := by
      intro hmem
      rcases List.mem_append.1 hmem with hm | hm
      · exact h2 hm
      · simp [gitChars] at hm
    show dropGitAll (afterLastSlash (pre ++ '/' :: (name ++ gitChars))) = name
    rw [Builder.afterLastSlash_append pre (name ++ gitChars) hslash,
        Builder.dropGitAll_append_git name h1]
  · apply congrArg String.mk
    show dropGitAll (afterLastSlash (pre ++ '/' :: name)) = name
    rw [Builder.afterLastSlash_append pre name h2,
        Builder.dropGitAll_of_not_contains name h1]

/-- Witness for C5 (corrected): for `https://github.com/user/project.git`
and `https://github.com/user/project` the derived name is `project`. -/
theorem Builder.project_name_strips_git_witness :
    project_name ⟨"https://github.com/user".data ++ '/' :: ("project".data ++ gitChars)⟩ =
      ⟨"project".data⟩ ∧
    project_name ⟨"https://github.com/user".data ++ '/' :: "project".data⟩ =
      ⟨"project".data⟩ :=
  Builder.project_name_strips_git "https://github.com/user".data "project".data
    (by decide) (by decide)

/-- Counterexample for C5 as stated: for a URL whose final segment is
`my.gitproject` (shape `.../name` with `name = my.gitproject`, which has no
trailing `.git` suffix) the code derives `myproject` — the interior
`.git` is also removed, altering a non-suffix part of the segment. -/
theorem Builder.project_name_counterexample :
    project_name "https://github.com/u/my.gitproject" = "myproject" ∧
    "myproject" ≠ "my.gitproject" := by
  decide

theorem Builder.extMatch_empty (f : SrcFile) : extMatch "" f = true := by
  have h : ("" : String).data = [] := rfl
  simp [extMatch, h, List.isSuffixOf, List.isPrefixOf]

theorem Builder.mem_fallbackCopies (tree : List SrcFile) (n : String) :
    n ∈ fallbackCopies tree ↔
      ∃ f, f ∈ tree ∧ f.isFile = true ∧ f.execOk = true ∧ f.name = n := by
  simp [fallbackCopies, List.mem_flatten, List.mem_map, List.mem_filter, binExts]
  constructor
  · rintro (⟨f, ⟨hf, ⟨hA, hB⟩, _⟩, rfl⟩ | ⟨f, ⟨hf, ⟨hA, hB⟩, _⟩, rfl⟩ |
      ⟨f, ⟨hf, ⟨hA, hB⟩, _⟩, rfl⟩ | ⟨f, ⟨hf, ⟨hA, hB⟩, _⟩, rfl⟩ |
      ⟨f, ⟨hf, ⟨hA, hB⟩, _⟩, rfl⟩) <;>
    exact ⟨f, hf, hA, hB, rfl⟩
  · rintro ⟨f, hf, hA, hB, rfl⟩
    exact Or.inl ⟨f, ⟨hf, ⟨hA, hB⟩, Builder.extMatch_empty f⟩, rfl⟩

/-- C3 (corrected): the Make driver falls back instead of raising exactly
when the `make install` step fails (configure or `make` failures raise);
the fallback creates the output directory and copies, flat, exactly the
regular files of the tree that are executable — the extension patterns add
no file, since the condition inside the loop requires `os.access(X_OK)`
for every match and the empty-extension pattern `*` already matches every
name.  A file with a binary extension such as `.so` but without the
executable bit is NOT copied. -/
theorem Builder.build_make_install_fallback (env : MakeEnv) (s0 : St) :
    (env.hasConfigure = true → env.configureOk = false →
      build_make_project env s0 = Outcome.err { s0 with cwd := "source_dir" }) ∧
    ((env.hasConfigure = false ∨ env.configureOk = true) → env.makeOk = false →
      build_make_project env s0 = Outcome.err { s0 with cwd := "source_dir" }) ∧
    ((env.hasConfigure = false ∨ env.configureOk = true) → env.makeOk = true →
      (env.installOk = false →
        build_make_project env s0 =
          Outcome.ok { cwd := "project_root", outputDirExists := true,
                       outputFiles := s0.outputFiles ++ fallbackCopies env.tree }) ∧
      (env.installOk = true →
        build_make_project env s0 = Outcome.ok { s0 with cwd := "project_root" })) ∧
    (∀ n, n ∈ fallbackCopies env.tree ↔
      ∃ f, f ∈ env.tree ∧ f.isFile = true ∧ f.execOk = true ∧ f.name = n) := by
  refine ⟨?_, ?_, ?_, Builder.mem_fallbackCopies env.tree⟩
  · intro hc hok
    simp [build_make_project, hc, hok]
  · intro hc hm
    rcases hc with hc | hc <;> simp [build_make_project, hc, hm]
  · intro hc hm
    constructor
    · intro hi
      rcases hc with hc | hc <;> simp [build_make_project, hc, hm, hi]
    · intro hi
      rcases hc with hc | hc <;> simp [build_make_project, hc, hm, hi]

/-- Witness for C3 (corrected): with a failing install step and a tree
holding an executable `prog` and an executable `lib.so`, the driver
returns normally with both files copied into the output directory. -/
theorem Builder.build_make_install_fallback_witness :
    build_make_project
        ⟨false, true, true, false, [⟨"prog", true, true⟩, ⟨"lib.so", true, true⟩]⟩
        ⟨"project_root", false, []⟩ =
      Outcome.ok { cwd := "project_root", outputDirExists := true,
                   outputFiles :=
                     ([] : List String) ++
                       fallbackCopies [⟨"prog", true, true⟩, ⟨"lib.so", true, true⟩] } :=
  ((Builder.build_make_install_fallback
      ⟨false, true, true, false, [⟨"prog", true, true⟩, ⟨"lib.so", true, true⟩]⟩
      ⟨"project_root", false, []⟩).2.2.1 (Or.inl rfl) rfl).1 rfl

/-- Counterexample for C3 as stated: with a failing install step and a
tree holding one owner-executable file `prog` and one non-executable
`lib.so`, only `prog` is copied — the claim's disjunctive condition
(executable OR binary extension) would have copied `lib.so` as well. -/
theorem Builder.build_make_fallback_counterexample :
    build_make_project
        ⟨false, true, true, false, [⟨"prog", true, true⟩, ⟨"lib.so", true, false⟩]⟩
        ⟨"project_root", false, []⟩ =
      Outcome.ok ⟨"project_root", true, ["prog"]⟩ ∧
    ("lib.so" : String) ∉ (["prog"] : List String) := by
  decide

/-- C4 (amended): both working-directory-changing drivers end at the
project root when they return normally (which need not be the directory
that was current before the driver started), and when any subprocess step
raises, the propagating error leaves the working directory at the source
directory — there is no restoration on error paths, since the final
`os.chdir(self.project_root)` is not in a `finally` block. -/
theorem Builder.drivers_cwd_on_exit (menv : MakeEnv) (aenv : AutotoolsEnv)
    (s t : St) :
    ((build_make_project menv s).isOk = true →
      (build_make_project menv s).state.cwd = "project_root") ∧
    ((build_make_project menv s).isOk = false →
      (build_make_project menv s).state.cwd = "source_dir") ∧
    ((build_autotools_project aenv t).isOk = true →
      (build_autotools_project aenv t).state.cwd = "project_root") ∧
    ((build_autotools_project aenv t).isOk = false →
      (build_autotools_project aenv t).state.cwd = "source_dir") := by
  refine ⟨?_, ?_, ?_, ?_⟩
  · cases hc : menv.hasConfigure <;> cases hk : menv.configureOk <;>
      cases hm : menv.makeOk <;> cases hi : menv.installOk <;>
      simp_all [build_make_project, Outcome.isOk, Outcome.state]
  · cases hc : menv.hasConfigure <;> cases hk : menv.configureOk <;>
      cases hm : menv.makeOk <;> cases hi : menv.installOk <;>
      simp_all [build_make_project, Outcome.isOk, Outcome.state]
  · cases h1 : aenv.hasAutogen <;> cases h2 : aenv.autogenOk <;>
      cases h3 : aenv.hasConfigure <;> cases h4 : aenv.configureOk <;>
      cases h5 : aenv.makeOk <;> cases h6 : aenv.installOk <;>
      simp_all [build_autotools_project, Outcome.isOk, Outcome.state]
  · cases h1 : aenv.hasAutogen <;> cases h2 : aenv.autogenOk <;>
      cases h3 : aenv.hasConfigure <;> cases h4 : aenv.configureOk <;>
      cases h5 : aenv.makeOk <;> cases h6 : aenv.installOk <;>
      simp_all [build_autotools_project, Outcome.isOk, Outcome.state]

/-- Witness for C4 (amended): a Make driver whose `make` step fails leaves
the working directory at the source directory, and an Autotools driver
that fully succeeds ends at the project root. -/
theorem Builder.drivers_cwd_on_exit_witness :
    (build_make_project ⟨false, true, false, true, []⟩
        ⟨"project_root", false, []⟩).state.cwd = "source_dir" ∧
    (build_autotools_project ⟨false, true, false, true, true, true⟩
        ⟨"project_root", false, []⟩).state.cwd = "project_root" :=
  ⟨(Builder.drivers_cwd_on_exit ⟨false, true, false, true, []⟩
      ⟨false, true, false, true, true, true⟩
      ⟨"project_root", false, []⟩ ⟨"project_root", false, []⟩).2.1 (by decide),
   (Builder.drivers_cwd_on_exit ⟨false, true, false, true, []⟩
      ⟨false, true, false, true, true, true⟩
      ⟨"project_root", false, []⟩ ⟨"project_root", false, []⟩).2.2.1 (by decide)⟩

/-- Counterexample for C4 as stated: started with working directory
`"caller_dir"`, a Make driver whose `make` step fails propagates the
error with the working directory left at the source directory, and even a
fully successful Autotools driver ends at the project root — in neither
case is the pre-driver working directory `"caller_dir"` restored. -/
theorem Builder.drivers_cwd_counterexample :
    build_make_project ⟨false, true, false, true, []⟩ ⟨"caller_dir", false, []⟩ =
      Outcome.err ⟨"source_dir", false, []⟩ ∧
    build_autotools_project ⟨false, true, false, true, true, true⟩
        ⟨"caller_dir", false, []⟩ =
      Outcome.ok ⟨"project_root", false, []⟩ ∧
    ("source_dir" : String) ≠ "caller_dir" ∧
    ("project_root" : String) ≠ "caller_dir" := by
  decide

/-- C9: `clone_repository` removes an existing checkout first (and only
then), builds the clone command with a `--branch` selector exactly when a
branch was supplied, runs the recursive submodule update exactly when the
clone succeeded, succeeds only if both subprocesses do, and never touches
the state — in particular a failure propagates without any cleanup of the
partial checkout (no removal event after the clone). -/
theorem Builder.clone_repository_spec (env : CloneEnv) (s : St) :
    ((clone_repository env s).events =
      (if env.sourceDirExists then [Event.removeSourceDir] else []) ++
      [Event.gitClone (cloneCmd env.url env.branch)] ++
      (if env.cloneOk then [Event.submoduleUpdate] else [])) ∧
    ((clone_repository env s).isOk = (env.cloneOk && env.submoduleOk)) ∧
    ((clone_repository env s).state = s) ∧
    (env.branch = none →
      cloneCmd env.url env.branch = ["git", "clone", env.url, "source_dir"]) ∧
    (∀ b, env.branch = some b →
      cloneCmd env.url env.branch =
        ["git", "clone", "--branch", b, env.url, "source_dir"]) := by
  refine ⟨?_, ?_, ?_, ?_, ?_⟩
  · cases hr : env.cloneOk <;> cases hs : env.submoduleOk <;>
      simp [clone_repository, StageResult.events, hr, hs]
  · cases hr : env.cloneOk <;> cases hs : env.submoduleOk <;>
      simp [clone_repository, StageResult.isOk, hr, hs]
  · cases hr : env.cloneOk <;> cases hs : env.submoduleOk <;>
      simp [clone_repository, StageResult.state, hr, hs]
  · intro h
    simp [cloneCmd, h]
  · intro b h
    simp [cloneCmd, h]

/-- Witness for C9: with branch `main` supplied, the clone command carries
the branch selector. -/
theorem Builder.clone_repository_spec_witness :
    cloneCmd "https://github.com/u/r.git" (some "main") =
      ["git", "clone", "--branch", "main", "https://github.com/u/r.git",
       "source_dir"] :=
  (Builder.clone_repository_spec
      ⟨"https://github.com/u/r.git", some "main", true, true, true⟩
      ⟨"project_root", false, []⟩).2.2.2.2 "main" rfl

/-- C1: when `check_dependencies` reports missing tools, `run` exits with
status 1, emits only diagnostic messages (no cleaning, removal, clone,
detection or driver event), and leaves the state untouched. -/
theorem Builder.run_aborts_on_missing_tools (env : RunEnv) (s0 : St)
    (h : check_dependencies env.deps ≠ []) :
    (run env s0).1 = 1 ∧
    (∀ e ∈ (run env s0).2.1, ∃ m, e = Event.diag m) ∧
    (run env s0).2.2 = s0 := by
  have hb : (check_dependencies env.deps).isEmpty = false := by
    cases hcd : check_dependencies env.deps with
    | nil => exact absurd hcd h
    | cons a t => rfl
  simp [run, hb]

/-- Witness for C1: a host missing `git` makes the run exit 1 with the
state unchanged. -/
theorem Builder.run_aborts_on_missing_tools_witness :
    (run ⟨⟨false, true, true, false, false⟩, true, ⟨"u", none, false, true, true⟩,
        none, ⟨true, true, true⟩, ⟨false, true, false, true, true, true⟩,
        ⟨false, true, true, true, []⟩⟩ ⟨"caller_dir", false, []⟩).1 = 1 ∧
    (run ⟨⟨false, true, true, false, false⟩, true, ⟨"u", none, false, true, true⟩,
        none, ⟨true, true, true⟩, ⟨false, true, false, true, true, true⟩,
        ⟨false, true, true, true, []⟩⟩ ⟨"caller_dir", false, []⟩).2.2 =
      ⟨"caller_dir", false, []⟩ :=
  ⟨(Builder.run_aborts_on_missing_tools _ _ (by decide)).1,
   (Builder.run_aborts_on_missing_tools _ _ (by decide)).2.2⟩

/-- C7: when the stages up to detection succeed and detection yields
Unknown, the run exits 1 after the error is surfaced with the
troubleshooting checklist, no build driver is invoked, and the only
source-checkout removal is the pre-clone one (the checkout is not rolled
back). -/
theorem Builder.run_unknown_detection (env : RunEnv) (s0 : St)
    (hdeps : check_dependencies env.deps = [])
    (hclean : env.cleanOk = true)
    (hclone : env.clone.cloneOk = true) (hsub : env.clone.submoduleOk = true)
    (hdet : detect_build_system env.srcListing = BuildSystem.UNKNOWN) :
    (run env s0).1 = 1 ∧
    (∀ bs, Event.driverRun bs ∉ (run env s0).2.1) ∧
    ((run env s0).2.1.count Event.removeSourceDir =
      if env.clone.sourceDirExists then 1 else 0) ∧
    troubleshootEv ∈ (run env s0).2.1 := by
  cases hsd : env.clone.sourceDirExists <;>
    simp [run, hdeps, clean_directories, hclean, clone_repository, hclone, hsub,
      build_project, hdet, hsd, errorTail, troubleshootEv,
      List.count_append, List.count_cons, List.count_nil]

/-- Witness for C7: a run on a tree with no marker files (and a
pre-existing checkout) exits 1 with the checklist printed. -/
theorem Builder.run_unknown_detection_witness :
    (run ⟨⟨true, true, true, false, false⟩, true, ⟨"u", none, true, true, true⟩,
        some ["README.md"], ⟨true, true, true⟩,
        ⟨false, true, false, true, true, true⟩,
        ⟨false, true, true, true, []⟩⟩ ⟨"caller_dir", false, []⟩).1 = 1 ∧
    troubleshootEv ∈
      (run ⟨⟨true, true, true, false, false⟩, true, ⟨"u", none, true, true, true⟩,
          some ["README.md"], ⟨true, true, true⟩,
          ⟨false, true, false, true, true, true⟩,
          ⟨false, true, true, true, []⟩⟩ ⟨"caller_dir", false, []⟩).2.1 :=
  ⟨(Builder.run_unknown_detection _ _ (by decide) rfl rfl rfl (by decide)).1,
   (Builder.run_unknown_detection _ _ (by decide) rfl rfl rfl (by decide)).2.2.2⟩

/-- C8: with all tools present, `run` always terminates with exit status 0
or 1; status 1 happens exactly with the troubleshooting checklist printed
exactly once (the single top-level handler) and no success message, and
status 0 happens exactly with the output-directory location printed and no
checklist. -/
theorem Builder.run_top_level_handler (env : RunEnv) (s0 : St)
    (hdeps : check_dependencies env.deps = []) :
    ((run env s0).1 = 0 ∨ (run env s0).1 = 1) ∧
    ((run env s0).1 = 1 →
      (run env s0).2.1.count troubleshootEv = 1 ∧
      outputLocEv ∉ (run env s0).2.1) ∧
    ((run env s0).1 = 0 →
      troubleshootEv ∉ (run env s0).2.1 ∧
      outputLocEv ∈ (run env s0).2.1) := by
  cases hclean : env.cleanOk with
  | false =>
    simp [run, hdeps, clean_directories, hclean, errorTail, successTail,
      troubleshootEv, outputLocEv, List.count_append, List.count_cons,
      List.count_nil]
  | true =>
    cases hclone : env.clone.cloneOk with
    | false =>
      cases hsd : env.clone.sourceDirExists <;>
        simp [run, hdeps, clean_directories, hclean, clone_repository, hclone,
          hsd, errorTail, successTail, troubleshootEv, outputLocEv,
          List.count_append, List.count_cons, List.count_nil]
    | true =>
      cases hsub : env.clone.submoduleOk with
      | false =>
        cases hsd : env.clone.sourceDirExists <;>
          simp [run, hdeps, clean_directories, hclean, clone_repository, hclone,
            hsub, hsd, errorTail, successTail, troubleshootEv, outputLocEv,
            List.count_append, List.count_cons, List.count_nil]
      | true =>
        cases hdet : detect_build_system env.srcListing <;>
          cases hsd : env.clone.sourceDirExists <;>
          rcases h1 : build_cmake_project env.cmake
              { s0 with outputDirExists := true, outputFiles := [] } with s1 | s1 <;>
          rcases h2 : build_autotools_project env.autotools
              { s0 with outputDirExists := true, outputFiles := [] } with s2 | s2 <;>
          rcases h3 : build_make_project env.make
              { s0 with outputDirExists := true, outputFiles := [] } with s3 | s3 <;>
          simp [run, hdeps, clean_directories, hclean, clone_repository,
            hclone, hsub, hsd, build_project, hdet, h1, h2, h3, errorTail,
            successTail, troubleshootEv, outputLocEv, List.count_append,
            List.count_cons, List.count_nil]

/-- Witness for C8: a fully successful CMake run exits 0, prints the
output location and no checklist. -/
theorem Builder.run_top_level_handler_witness :
    troubleshootEv ∉
      (run ⟨⟨true, true, true, false, false⟩, true, ⟨"u", none, false, true, true⟩,
          some ["CMakeLists.txt"], ⟨true, true, true⟩,
          ⟨false, true, false, true, true, true⟩,
          ⟨false, true, true, true, []⟩⟩ ⟨"caller_dir", false, []⟩).2.1 ∧
    outputLocEv ∈
      (run ⟨⟨true, true, true, false, false⟩, true, ⟨"u", none, false, true, true⟩,
          some ["CMakeLists.txt"], ⟨true, true, true⟩,
          ⟨false, true, false, true, true, true⟩,
          ⟨false, true, true, true, []⟩⟩ ⟨"caller_dir", false, []⟩).2.1 :=
  (Builder.run_top_level_handler _ _ (by decide)).2.2 (by decide)
